import Mathlib

/-!
Verification of the CopterSonde Ground Control Station telemetry core.

This file gives a shallow embedding of the state-bearing parts of
`gcs/vehicle_state.py`, `gcs/mavlink_client.py` and the parameter editor
screen of `app/main.py`, and proves the behavioural properties claimed
for them.  Python floats are modelled as real numbers (`ℝ`) in the
telemetry path and as rationals (`ℚ`) in the purely arithmetic parameter
editor; Python ints are `ℤ`/`ℕ`.  UI-widget updates (progress bars,
labels, row highlighting) have no behavioural content and are omitted;
user-visible feedback text is modelled by an explicit datatype.
-/

namespace GCS

noncomputable section

/-- Cap on the rolling history buffers (`VehicleState.MAX_HISTORY`). -/
def MAX_HISTORY : ℕ := 3000

/-- Heartbeat timeout in seconds (`HEARTBEAT_TIMEOUT_S`). -/
def HEARTBEAT_TIMEOUT_S : ℝ := 3.0

/-- MAVLink `MAV_TYPE_GCS` enum value. -/
def MAV_TYPE_GCS : ℕ := 6

/-- Default wind-estimation coefficient `WS_A`. -/
def WS_A : ℝ := 37.1

/-- Default wind-estimation coefficient `WS_B`. -/
def WS_B : ℝ := 3.8

/-- Severity names table (`SEVERITY_NAMES`), with the `.get(...,"UNKNOWN")`
fallback folded in. -/
def SEVERITY_NAMES (s : ℕ) : String :=
  match s with
  | 0 => "EMERGENCY"
  | 1 => "ALERT"
  | 2 => "CRITICAL"
  | 3 => "ERROR"
  | 4 => "WARNING"
  | 5 => "NOTICE"
  | 6 => "INFO"
  | 7 => "DEBUG"
  | _ => "UNKNOWN"

/-- One entry of the status log (`StatusMessage` dataclass). -/
structure StatusMessage where
  severity : ℕ
  severity_name : String
  text : String
  timestamp : ℝ

/-- The mutable telemetry container (`VehicleState`).  Field defaults are
the values assigned by `reset()`; the fourteen `h_*` lists are the rolling
history buffers.  (`adsb_targets`, `servo_raw`, radio and battery detail
fields are not needed by any claim and are elided.) -/
structure VehicleState where
  lat : ℝ := 0
  lon : ℝ := 0
  alt_amsl : ℝ := 0
  alt_rel : ℝ := 0
  fix_type : ℕ := 0
  satellites : ℕ := 0
  hdop : ℝ := 99.99
  roll : ℝ := 0
  pitch : ℝ := 0
  yaw : ℝ := 0
  heading_deg : ℝ := 0
  groundspeed : ℝ := 0
  airspeed : ℝ := 0
  vx : ℝ := 0
  vy : ℝ := 0
  vz : ℝ := 0
  armed : Bool := false
  system_status : ℕ := 0
  last_heartbeat : ℝ := 0
  temperature_sensors : List ℝ := []
  humidity_sensors : List ℝ := []
  mean_temp : ℝ := 0
  mean_rh : ℝ := 0
  pressure : ℝ := 0
  wind_speed : ℝ := 0
  wind_direction : ℝ := 0
  vertical_wind : ℝ := 0
  status_messages : List StatusMessage := []
  throttle : ℝ := 0
  time_since_boot : ℝ := 0
  h_time : List ℝ := []
  h_lat : List ℝ := []
  h_lon : List ℝ := []
  h_alt_rel : List ℝ := []
  h_alt_amsl : List ℝ := []
  h_temperature : List ℝ := []
  h_humidity : List ℝ := []
  h_dew_temp : List ℝ := []
  h_wind_speed : List ℝ := []
  h_wind_dir : List ℝ := []
  h_vert_wind : List ℝ := []
  h_temp_sensors : List (List ℝ) := []
  h_rh_sensors : List (List ℝ) := []
  h_vz : List ℝ := []

/-- The freshly `reset()` state. -/
def VehicleState.reset : VehicleState := {}

/-- Append to one history buffer and trim: `buf.append(val)` followed by
`if len(buf) > MAX_HISTORY: del buf[0]`. -/
def push (cap : ℕ) (buf : List α) (v : α) : List α :=
  let b := buf ++ [v]
  if cap < b.length then b.drop 1 else b

/-- One fused sample handed to `append_history`; field defaults mirror the
`data.get(key, 0)` / `data.get(key, [])` lookups. -/
structure HistData where
  time_since_boot : ℝ := 0
  lat : ℝ := 0
  lon : ℝ := 0
  alt_rel : ℝ := 0
  alt_amsl : ℝ := 0
  temperature : ℝ := 0
  humidity : ℝ := 0
  dew_temp : ℝ := 0
  wind_speed : ℝ := 0
  wind_dir : ℝ := 0
  vert_wind : ℝ := 0
  temp_sensors : List ℝ := []
  rh_sensors : List ℝ := []
  vz : ℝ := 0

/-- The `VehicleState.append_history` method: push one value onto each of
the fourteen buffers, trimming each at `MAX_HISTORY`. -/
def append_history (st : VehicleState) (d : HistData) : VehicleState :=
  { st with
    h_time := push MAX_HISTORY st.h_time d.time_since_boot
    h_lat := push MAX_HISTORY st.h_lat d.lat
    h_lon := push MAX_HISTORY st.h_lon d.lon
    h_alt_rel := push MAX_HISTORY st.h_alt_rel d.alt_rel
    h_alt_amsl := push MAX_HISTORY st.h_alt_amsl d.alt_amsl
    h_temperature := push MAX_HISTORY st.h_temperature d.temperature
    h_humidity := push MAX_HISTORY st.h_humidity d.humidity
    h_dew_temp := push MAX_HISTORY st.h_dew_temp d.dew_temp
    h_wind_speed := push MAX_HISTORY st.h_wind_speed d.wind_speed
    h_wind_dir := push MAX_HISTORY st.h_wind_dir d.wind_dir
    h_vert_wind := push MAX_HISTORY st.h_vert_wind d.vert_wind
    h_temp_sensors := push MAX_HISTORY st.h_temp_sensors d.temp_sensors
    h_rh_sensors := push MAX_HISTORY st.h_rh_sensors d.rh_sensors
    h_vz := push MAX_HISTORY st.h_vz d.vz }

/-- The `VehicleState.clear_history` method: empty all fourteen buffers,
keep every current-value field. -/
def clear_history (st : VehicleState) : VehicleState :=
  { st with
    h_time := [], h_lat := [], h_lon := [], h_alt_rel := [], h_alt_amsl := []
    h_temperature := [], h_humidity := [], h_dew_temp := []
    h_wind_speed := [], h_wind_dir := [], h_vert_wind := []
    h_temp_sensors := [], h_rh_sensors := [], h_vz := [] }

/-- The Magnus-formula dew point (`VehicleState.dew_point`), including the
fallback branch for non-positive humidity or very cold temperatures. -/
def dew_point (temp_c rh : ℝ) : ℝ :=
  if rh ≤ 0 ∨ temp_c < -50 then temp_c - 10.0
  else
    let a : ℝ := 17.625
    let b : ℝ := 243.04
    let alpha := Real.log (rh / 100.0) + a * temp_c / (b + temp_c)
    (b * alpha) / (a - alpha)

/-- Fields of a MAVLink GLOBAL_POSITION_INT message used by the handler:
lat/lon in degE7, altitudes in mm, velocities in cm/s, `hdg` in
centidegrees with 65535 meaning "heading unknown". -/
structure GlobalPositionIntMsg where
  lat : ℤ := 0
  lon : ℤ := 0
  alt : ℤ := 0
  relative_alt : ℤ := 0
  vx : ℤ := 0
  vy : ℤ := 0
  vz : ℤ := 0
  hdg : ℕ := 0

/-- Handler `MAVLinkClient._on_global_position_int`. -/
def on_global_position_int (st : VehicleState) (m : GlobalPositionIntMsg) :
    VehicleState :=
  let st := { st with
    lat := (m.lat : ℝ) / 1e7
    lon := (m.lon : ℝ) / 1e7
    alt_amsl := (m.alt : ℝ) / 1000.0
    alt_rel := (m.relative_alt : ℝ) / 1000.0
    vx := (m.vx : ℝ)
    vy := (m.vy : ℝ)
    vz := (m.vz : ℝ) }
  if m.hdg ≠ 65535 then { st with heading_deg := (m.hdg : ℝ) / 100.0 } else st

/-- Fields of a MAVLink VFR_HUD message used by the handler.  Its `alt`
field is AMSL, and `heading` is an integer number of degrees. -/
structure VfrHudMsg where
  airspeed : ℝ := 0
  groundspeed : ℝ := 0
  heading : ℤ := 0
  throttle : ℕ := 0
  alt : ℝ := 0

/-- Handler `MAVLinkClient._on_vfr_hud`.  Writes exactly airspeed,
groundspeed, heading_deg, throttle and alt_amsl; `alt_rel` is left to
`_on_global_position_int`. -/
def on_vfr_hud (st : VehicleState) (m : VfrHudMsg) : VehicleState :=
  { st with
    airspeed := m.airspeed
    groundspeed := m.groundspeed
    heading_deg := (m.heading : ℝ)
    throttle := (m.throttle : ℝ)
    alt_amsl := m.alt }

/-- Fields of a MAVLink GPS_RAW_INT message used by the handler; `eph` is
HDOP times 100, with values of 9999 and above (or 0, which is falsy in
Python) meaning unknown. -/
structure GpsRawIntMsg where
  fix_type : ℕ := 0
  satellites_visible : ℕ := 0
  eph : ℕ := 0

/-- Handler `MAVLinkClient._on_gps_raw_int`.  The guard `msg.eph and
msg.eph < 9999` is Python truthiness: nonzero and below 9999. -/
def on_gps_raw_int (st : VehicleState) (m : GpsRawIntMsg) : VehicleState :=
  { st with
    fix_type := m.fix_type
    satellites := m.satellites_visible
    hdop := if m.eph ≠ 0 ∧ m.eph < 9999 then (m.eph : ℝ) / 100.0 else 99.99 }

/-- Fields of a MAVLink ATTITUDE message (radians). -/
structure AttitudeMsg where
  roll : ℝ := 0
  pitch : ℝ := 0
  yaw : ℝ := 0

/-- The wind estimator `MAVLinkClient._compute_wind`: SWX quadratic from
the pitch magnitude, direction from yaw, vertical wind from `-vz/100`. -/
def compute_wind (ws_a ws_b : ℝ) (st : VehicleState) : VehicleState :=
  let tan_p := Real.tan |st.pitch|
  { st with
    wind_speed :=
      if 0 < tan_p then max 0.0 (ws_a * tan_p + ws_b * Real.sqrt tan_p)
      else 0.0
    wind_direction := st.yaw
    vertical_wind := -st.vz / 100.0 }

/-- Handler `MAVLinkClient._on_attitude`: store the attitude, then
recompute wind with the client's current coefficients. -/
def on_attitude (ws_a ws_b : ℝ) (st : VehicleState) (m : AttitudeMsg) :
    VehicleState :=
  compute_wind ws_a ws_b { st with roll := m.roll, pitch := m.pitch, yaw := m.yaw }

/-- Fields of a MAVLink STATUSTEXT message used by the handler. -/
structure StatusTextMsg where
  severity : ℕ := 0
  text : String := ""

/-- Handler `MAVLinkClient._on_statustext`; `now` is the wall-clock
timestamp the handler reads.  Appends, then caps the log to the most
recent 200 entries (`list[-200:]`). -/
def on_statustext (st : VehicleState) (m : StatusTextMsg) (now : ℝ) :
    VehicleState :=
  let msgs := st.status_messages ++
    [⟨m.severity, SEVERITY_NAMES m.severity, m.text, now⟩]
  { st with status_messages :=
      if 200 < msgs.length then msgs.drop (msgs.length - 200) else msgs }

/-- Heartbeat bookkeeping of `MAVLinkClient._on_heartbeat` restricted to
the `last_heartbeat_time` field: heartbeats whose `type` is
`MAV_TYPE_GCS` are ignored, any other heartbeat records the current
monotonic time. -/
def on_heartbeat_lhb (lhb : ℝ) (mtype : ℕ) (now : ℝ) : ℝ :=
  if mtype = MAV_TYPE_GCS then lhb else now

/-- Fold `_on_heartbeat` over a trace of (monotonic time, vehicle type)
heartbeat events, starting from the reset value 0.0 of
`last_heartbeat_time`. -/
def processHeartbeats (lhb : ℝ) (events : List (ℝ × ℕ)) : ℝ :=
  events.foldl (fun l e => on_heartbeat_lhb l e.2 e.1) lhb

/-- The method `MAVLinkClient.heartbeat_age`: `none` models the
`float("inf")` returned before any heartbeat was processed. -/
def heartbeat_age (lhb now : ℝ) : Option ℝ :=
  if lhb = 0 then none else some (now - lhb)

/-- The method `MAVLinkClient.is_healthy`: the age (infinity compares
greater than everything) is below `HEARTBEAT_TIMEOUT_S`. -/
def is_healthy (lhb now : ℝ) : Prop :=
  match heartbeat_age lhb now with
  | none => False
  | some a => a < HEARTBEAT_TIMEOUT_S

/-- The Python filter `[v for v in values if v and v > 0]`: keep readings
that are truthy (nonzero) and positive. -/
def positiveReadings : List ℝ → List ℝ
  | [] => []
  | v :: rest =>
      if v ≠ 0 ∧ 0 < v then v :: positiveReadings rest
      else positiveReadings rest

/-- Handler `MAVLinkClient._on_cass_sensor_raw` for the custom
CASS_SENSOR_RAW message: `dtype` is `app_datatype` (0 = iMet temperature
in Kelvin, 1 = HYT humidity in percent), `values` the channel array,
`boot_ms` the `time_boot_ms` stamp.  On sub-types 0 and 1 it appends one
fused sample to the history buffers. -/
def on_cass_sensor_raw (st : VehicleState) (dtype : ℕ) (values : List ℝ)
    (boot_ms : ℝ) : VehicleState :=
  let st := if boot_ms ≠ 0 then { st with time_since_boot := boot_ms / 1000.0 } else st
  let st :=
    if dtype = 0 then
      let temps := positiveReadings (values.take 4)
      if temps ≠ [] then
        { st with temperature_sensors := temps
                  mean_temp := temps.sum / (temps.length : ℝ) }
      else st
    else if dtype = 1 then
      let rhs := positiveReadings (values.take 4)
      if rhs ≠ [] then
        { st with humidity_sensors := rhs
                  mean_rh := rhs.sum / (rhs.length : ℝ) }
      else st
    else st
  if dtype = 0 ∨ dtype = 1 then
    let temp_c :=
      if 100 < st.mean_temp then st.mean_temp - 273.15 else st.mean_temp
    let rh := st.mean_rh
    let dew := dew_point temp_c rh
    append_history st
      { time_since_boot := st.time_since_boot
        lat := st.lat, lon := st.lon
        alt_rel := st.alt_rel, alt_amsl := st.alt_amsl
        temperature := temp_c, humidity := rh, dew_temp := dew
        wind_speed := st.wind_speed, wind_dir := st.wind_direction
        vert_wind := st.vertical_wind
        temp_sensors := st.temperature_sensors
        rh_sensors := st.humidity_sensors
        vz := st.vz }
  else st

end

/-- Parameter wire-type codes that display as integers
(`ParamsScreen._INT_TYPES`). -/
def INT_TYPES : List ℕ := [1, 2, 3, 4, 5, 6, 7, 8]

/-- Value, wire type and protocol index of one received parameter
(the `{"value":…, "type":…, "index":…}` dict). -/
structure ParamInfo where
  value : ℚ
  ptype : ℕ
  index : ℕ
deriving DecidableEq

/-- Operator-visible feedback of the parameter editor, one constructor
per `params_feedback` message the screen can set. -/
inductive ParamsFeedback where
  | idle
  | written (name : String) (value : ℚ)
  | writeFailed (name : String) (reported : ℚ)
  | loaded (count : ℕ)
  | modifiedCount (n : ℕ)
  | noChanges
deriving DecidableEq

/-- Insert-or-replace in an insertion-ordered association list, the
semantics of Python dict assignment. -/
def upsert : List (String × α) → String → α → List (String × α)
  | [], k, v => [(k, v)]
  | (k', v') :: rest, k, v =>
      if k' = k then (k, v) :: rest else (k', v') :: upsert rest k v

/-- Remove a key from an association list (Python `del d[k]`). -/
def adel (l : List (String × α)) (k : String) : List (String × α) :=
  l.filter (fun p => p.1 != k)

/-- State of `ParamsScreen` relevant to parameter handling: received
params, original-at-load baselines, pending edits, reported total count,
bulk-loading flag and operator feedback. -/
structure ParamsScreen where
  params : List (String × ParamInfo) := []
  original_values : List (String × ℚ) := []
  modified : List (String × ℚ) := []
  param_count : ℕ := 0
  loading : Bool := false
  feedback : ParamsFeedback := .idle

/-- Payload of a PARAM_VALUE event as forwarded by
`MAVLinkClient._on_param_value`. -/
structure ParamValueData where
  param_id : String
  param_value : ℚ
  param_type : ℕ
  param_index : ℕ
  param_count : ℕ

/-- The event handler `ParamsScreen._on_param_received`: record the
parameter, seed its original baseline, run write-ack verification against
the pending-edit map (tolerance 1e-6 on the staged-minus-echoed value for
every type), and finish a bulk load when all parameters have arrived.
Progress-bar and label updates are UI-only and omitted. -/
def on_param_received (s : ParamsScreen) (d : ParamValueData) : ParamsScreen :=
  let s := { s with
    param_count := d.param_count
    params := upsert s.params d.param_id ⟨d.param_value, d.param_type, d.param_index⟩ }
  let s :=
    if (List.lookup d.param_id s.original_values).isNone then
      { s with original_values := upsert s.original_values d.param_id d.param_value }
    else s
  let s :=
    if ¬ s.loading then
      match List.lookup d.param_id s.modified with
      | some staged =>
          if |staged - d.param_value| < 1 / 1000000 then
            { s with
              modified := adel s.modified d.param_id
              original_values := upsert s.original_values d.param_id d.param_value
              feedback := .written d.param_id d.param_value }
          else
            { s with feedback := .writeFailed d.param_id d.param_value }
      | none => s
    else s
  if s.loading ∧ s.param_count ≤ s.params.length then
    { s with loading := false, feedback := .loaded s.params.length }
  else s

/-- Truncation toward zero, the behaviour of Python `int()` on a float. -/
def truncQ (q : ℚ) : ℤ := if 0 ≤ q then ⌊q⌋ else ⌈q⌉

/-- The UI action `ParamsScreen.on_param_edited` with the text already
parsed to a rational `raw` (string-parse failures are UI-only): integer
wire types truncate the value, and the edit is staged when it differs
from the original baseline by more than 1e-7, un-staged otherwise. -/
def on_param_edited (s : ParamsScreen) (name : String) (raw : ℚ) : ParamsScreen :=
  match List.lookup name s.params with
  | none => s
  | some info =>
      let new_value : ℚ := if info.ptype ∈ INT_TYPES then (truncQ raw : ℚ) else raw
      let original := (List.lookup name s.original_values).getD info.value
      let s :=
        if 1 / 10000000 < |new_value - original| then
          { s with modified := upsert s.modified name new_value }
        else if (List.lookup name s.modified).isSome then
          { s with modified := adel s.modified name }
        else s
      { s with feedback :=
          if s.modified.length ≠ 0 then .modifiedCount s.modified.length
          else .noChanges }

noncomputable section

/-- One call against the history API: a fused-sample append or a clear. -/
inductive HistOp where
  | append (d : HistData)
  | clear

/-- Apply one history call to the state. -/
def applyHistOp (st : VehicleState) : HistOp → VehicleState
  | .append d => append_history st d
  | .clear => clear_history st

/-- Run a finite sequence of history calls from a freshly reset state. -/
def runHistOps (ops : List HistOp) : VehicleState :=
  ops.foldl applyHistOp VehicleState.reset

/-- All fourteen rolling history buffers have the same length. -/
def histAligned (st : VehicleState) : Prop :=
  st.h_lat.length = st.h_time.length ∧
  st.h_lon.length = st.h_time.length ∧
  st.h_alt_rel.length = st.h_time.length ∧
  st.h_alt_amsl.length = st.h_time.length ∧
  st.h_temperature.length = st.h_time.length ∧
  st.h_humidity.length = st.h_time.length ∧
  st.h_dew_temp.length = st.h_time.length ∧
  st.h_wind_speed.length = st.h_time.length ∧
  st.h_wind_dir.length = st.h_time.length ∧
  st.h_vert_wind.length = st.h_time.length ∧
  st.h_temp_sensors.length = st.h_time.length ∧
  st.h_rh_sensors.length = st.h_time.length ∧
  st.h_vz.length = st.h_time.length

/-- A sequence of appends sufficient to fill the history buffers to the
cap, used to exhibit the eviction behaviour at the cap. -/
def capFillOps : List HistOp := List.replicate MAX_HISTORY (.append {})

/-- Build one status-log record from (severity, text, wall-clock time),
as `_on_statustext` does. -/
def mkStatus (m : ℕ × String × ℝ) : StatusMessage :=
  ⟨m.1, SEVERITY_NAMES m.1, m.2.1, m.2.2⟩

/-- Feed a sequence of (severity, text, timestamp) STATUSTEXT messages
through the handler, one at a time, from a freshly reset state. -/
def runStatusTexts (msgs : List (ℕ × String × ℝ)) : VehicleState :=
  msgs.foldl (fun st m => on_statustext st ⟨m.1, m.2.1⟩ m.2.2) VehicleState.reset

/-- Magnus dew-point approximation as the specification words it, with
constants a = 17.625 and b = 243.04; stated separately so the fallback
claim can compare `dew_point` against it. -/
def magnusFromSpec (temp_c rh : ℝ) : ℝ :=
  let a : ℝ := 17.625
  let b : ℝ := 243.04
  let alpha := Real.log (rh / 100.0) + a * temp_c / (b + temp_c)
  (b * alpha) / (a - alpha)

end

/-! Helper lemmas about the buffer-trimming primitive. -/

theorem push_length_of_le {cap : ℕ} {l : List α} (v : α) (h : l.length ≤ cap) :
    (push cap l v).length = min (l.length + 1) cap := by
  simp only [push, List.length_append, List.length_cons, List.length_nil]
  split
  · simp only [List.length_drop, List.length_append, List.length_cons,
      List.length_nil]
    omega
  · simp only [List.length_append, List.length_cons, List.length_nil]
    omega

theorem push_at_cap {cap : ℕ} {l : List α} (v : α) (h : l.length = cap)
    (hcap : 1 ≤ cap) : push cap l v = l.drop 1 ++ [v] := by
  simp only [push]
  rw [if_pos (by simp; omega), List.drop_append_of_le_length (by omega)]

theorem push_getLast {cap : ℕ} {l : List α} (v : α) (hcap : 1 ≤ cap) :
    (push cap l v).getLast? = some v := by
  simp only [push]
  split
  · rcases l with _ | ⟨a, l⟩
    · simp at *
      omega
    · simp [List.getLast?_append]
  · simp [List.getLast?_append]

/-- Claim C2: after a GLOBAL_POSITION_INT with relative_alt = 50000 mm
followed by a VFR_HUD with alt = 120.0, relative altitude is 50.0 m and
AMSL altitude is 120.0; in general the VFR_HUD handler writes exactly
airspeed, groundspeed, heading_deg, throttle and alt_amsl, and never
writes alt_rel. -/
theorem vfr_hud_amsl_only (st : VehicleState) (g : GlobalPositionIntMsg)
    (v : VfrHudMsg) (hg : g.relative_alt = 50000) (hv : v.alt = 120) :
    ((on_vfr_hud (on_global_position_int st g) v).alt_rel = 50 ∧
     (on_vfr_hud (on_global_position_int st g) v).alt_amsl = 120) ∧
    ∀ (s : VehicleState) (m : VfrHudMsg),
      on_vfr_hud s m =
        { s with airspeed := m.airspeed, groundspeed := m.groundspeed,
                 heading_deg := (m.heading : ℝ), throttle := (m.throttle : ℝ),
                 alt_amsl := m.alt } ∧
      (on_vfr_hud s m).alt_rel = s.alt_rel := by
  refine ⟨⟨?_, ?_⟩, fun s m => ⟨rfl, rfl⟩⟩
  · have h1 : (on_global_position_int st g).alt_rel = (g.relative_alt : ℝ) / 1000.0 := by
      simp only [on_global_position_int]
      split <;> rfl
    simp only [on_vfr_hud, h1, hg]
    norm_num
  · simp only [on_vfr_hud, hv]

/-- Witness for C2 at a concrete state and concrete messages. -/
theorem vfr_hud_amsl_only_witness :
    (on_vfr_hud (on_global_position_int VehicleState.reset
        { relative_alt := 50000 }) { alt := 120 }).alt_rel = 50 ∧
    (on_vfr_hud (on_global_position_int VehicleState.reset
        { relative_alt := 50000 }) { alt := 120 }).alt_amsl = 120 :=
  (vfr_hud_amsl_only VehicleState.reset { relative_alt := 50000 }
    { alt := 120 } rfl rfl).1

/-- Claim C5: a GLOBAL_POSITION_INT whose hdg carries the 65535 sentinel
leaves heading_deg at its prior value, and a GPS_RAW_INT with eph ≥ 9999
sets hdop to exactly 99.99. -/
theorem heading_and_hdop_sentinels (st st2 : VehicleState)
    (g : GlobalPositionIntMsg) (r : GpsRawIntMsg)
    (hg : g.hdg = 65535) (hr : 9999 ≤ r.eph) :
    (on_global_position_int st g).heading_deg = st.heading_deg ∧
    (on_gps_raw_int st2 r).hdop = 99.99 := by
  constructor
  · simp [on_global_position_int, hg]
  · simp only [on_gps_raw_int]
    rw [if_neg (by omega)]

/-- Witness for C5: prior heading 7 survives the sentinel, and
eph = 9999 reports hdop 99.99. -/
theorem heading_and_hdop_sentinels_witness :
    (on_global_position_int { heading_deg := 7 } { hdg := 65535 }).heading_deg = 7 ∧
    (on_gps_raw_int VehicleState.reset { eph := 9999 }).hdop = 99.99 :=
  heading_and_hdop_sentinels { heading_deg := 7 } VehicleState.reset
    { hdg := 65535 } { eph := 9999 } rfl le_rfl

/-- Claim C10: dew_point returns the fallback temp_c − 10.0 exactly when
rh ≤ 0 or temp_c < −50, and otherwise equals the Magnus approximation
with constants a = 17.625 and b = 243.04. -/
theorem dew_point_fallback (t rh : ℝ) :
    ((rh ≤ 0 ∨ t < -50) → dew_point t rh = t - 10.0) ∧
    (0 < rh → -50 ≤ t → dew_point t rh = magnusFromSpec t rh) := by
  constructor
  · intro h
    simp only [dew_point, if_pos h]
  · intro h1 h2
    unfold dew_point
    rw [if_neg]
    · rfl
    · push_neg
      exact ⟨by linarith, by linarith⟩

/-- Witness for C10 on both branches. -/
theorem dew_point_fallback_witness :
    dew_point 20 0 = 20 - 10.0 ∧ dew_point 20 50 = magnusFromSpec 20 50 :=
  ⟨(dew_point_fallback 20 0).1 (Or.inl le_rfl),
   (dew_point_fallback 20 50).2 (by norm_num) (by norm_num)⟩

/-- Claim C4: on every attitude update the horizontal wind speed equals
max(0, A·tan|pitch| + B·√tan|pitch|) when tan|pitch| > 0 and 0 otherwise
(A = 37.1, B = 3.8); pitch = 0 gives exactly 0, and the wind speed is
non-decreasing as the pitch magnitude increases from 0 (below π/2). -/
theorem wind_speed_formula_props (st st2 : VehicleState) (m m2 : AttitudeMsg)
    (h0 : 0 ≤ m.pitch) (hpq : m.pitch ≤ m2.pitch) (hq : m2.pitch < Real.pi / 2) :
    ((on_attitude WS_A WS_B st m).wind_speed =
      if 0 < Real.tan |m.pitch| then
        max 0 (WS_A * Real.tan |m.pitch| + WS_B * Real.sqrt (Real.tan |m.pitch|))
      else 0) ∧
    (m.pitch = 0 → (on_attitude WS_A WS_B st m).wind_speed = 0) ∧
    (on_attitude WS_A WS_B st m).wind_speed ≤
      (on_attitude WS_A WS_B st2 m2).wind_speed := by
  have key : ∀ (s : VehicleState) (mm : AttitudeMsg),
      (on_attitude WS_A WS_B s mm).wind_speed =
        if 0 < Real.tan |mm.pitch| then
          max 0 (WS_A * Real.tan |mm.pitch| + WS_B * Real.sqrt (Real.tan |mm.pitch|))
        else 0 := by
    intro s mm
    norm_num [on_attitude, compute_wind]
  refine ⟨key st m, ?_, ?_⟩
  · intro hz
    rw [key]
    simp [hz, Real.tan_zero]
  · rw [key, key]
    have habs : |m.pitch| = m.pitch := abs_of_nonneg h0
    have habs2 : |m2.pitch| = m2.pitch := abs_of_nonneg (le_trans h0 hpq)
    rw [habs, habs2]
    have htan : Real.tan m.pitch ≤ Real.tan m2.pitch := by
      rcases eq_or_lt_of_le hpq with h | h
      · rw [h]
      · exact le_of_lt (Real.tan_lt_tan_of_nonneg_of_lt_pi_div_two h0 hq h)
    by_cases hp : 0 < Real.tan m.pitch
    · have hq2 : 0 < Real.tan m2.pitch := lt_of_lt_of_le hp htan
      rw [if_pos hp, if_pos hq2]
      refine max_le_max le_rfl ?_
      have hA : (0:ℝ) ≤ WS_A := by norm_num [WS_A]
      have hB : (0:ℝ) ≤ WS_B := by norm_num [WS_B]
      exact add_le_add (mul_le_mul_of_nonneg_left htan hA)
        (mul_le_mul_of_nonneg_left (Real.sqrt_le_sqrt htan) hB)
    · rw [if_neg hp]
      split
      · exact le_max_left _ _
      · exact le_rfl

/-- Witness for C4: pitch 0 yields zero wind, and pitch 1 rad yields at
least as much wind as pitch 0. -/
theorem wind_speed_formula_props_witness :
    (on_attitude WS_A WS_B VehicleState.reset ⟨0, 0, 0⟩).wind_speed = 0 ∧
    (on_attitude WS_A WS_B VehicleState.reset ⟨0, 0, 0⟩).wind_speed ≤
      (on_attitude WS_A WS_B VehicleState.reset ⟨0, 1, 0⟩).wind_speed := by
  have h := wind_speed_formula_props VehicleState.reset VehicleState.reset
    ⟨0, 0, 0⟩ ⟨0, 1, 0⟩ le_rfl zero_le_one
    (by have := Real.pi_gt_three; linarith)
  exact ⟨h.2.1 rfl, h.2.2⟩

/-- Claim C6: for a trace of heartbeat events (positive, nondecreasing
monotonic timestamps, all at or before the query time t), is_healthy at t
holds iff some heartbeat from a non-GCS vehicle type was processed within
the 3.0-second window before t; with no such heartbeat (in particular
before any heartbeat at all) it is false. -/
theorem is_healthy_iff (events : List (ℝ × ℕ)) (t : ℝ)
    (hpos : ∀ e ∈ events, 0 < e.1)
    (hmono : events.Pairwise (fun a b => a.1 ≤ b.1))
    (hle : ∀ e ∈ events, e.1 ≤ t) :
    (is_healthy (processHeartbeats 0 events) t ↔
      ∃ e ∈ events, e.2 ≠ MAV_TYPE_GCS ∧ t - e.1 < HEARTBEAT_TIMEOUT_S) := by
  have ishl : ∀ x : ℝ, is_healthy x t ↔ (x ≠ 0 ∧ t - x < HEARTBEAT_TIMEOUT_S) := by
    intro x
    by_cases hx : x = 0
    · simp [is_healthy, heartbeat_age, hx]
    · simp [is_healthy, heartbeat_age, hx]
  revert hpos hmono hle
  induction events using List.reverseRecOn with
  | nil =>
      intro _ _ _
      simp [processHeartbeats, is_healthy, heartbeat_age]
  | append_singleton l e ih =>
      intro hpos hmono hle
      have hstep : processHeartbeats 0 (l ++ [e]) =
          on_heartbeat_lhb (processHeartbeats 0 l) e.2 e.1 := by
        simp [processHeartbeats, List.foldl_append, on_heartbeat_lhb]
      have hposl : ∀ x ∈ l, 0 < x.1 :=
        fun x hx => hpos x (List.mem_append_left _ hx)
      have hlel : ∀ x ∈ l, x.1 ≤ t :=
        fun x hx => hle x (List.mem_append_left _ hx)
      have hmonol : l.Pairwise (fun a b => a.1 ≤ b.1) :=
        (List.pairwise_append.mp hmono).1
      have hbound : ∀ x ∈ l, x.1 ≤ e.1 := by
        intro x hx
        exact (List.pairwise_append.mp hmono).2.2 x hx e (List.mem_singleton.mpr rfl)
      by_cases hgcs : e.2 = MAV_TYPE_GCS
      · rw [hstep, on_heartbeat_lhb, if_pos hgcs]
        refine (ih hposl hmonol hlel).trans ⟨?_, ?_⟩
        · rintro ⟨x, hxl, hx⟩
          exact ⟨x, List.mem_append_left _ hxl, hx⟩
        · rintro ⟨x, hxm, hneq, hlt⟩
          rcases List.mem_append.mp hxm with h | h
          · exact ⟨x, h, hneq, hlt⟩
          · rw [List.mem_singleton] at h
            subst h
            exact absurd hgcs hneq
      · rw [hstep, on_heartbeat_lhb, if_neg hgcs, ishl]
        have he1 : (0:ℝ) < e.1 :=
          hpos e (List.mem_append_right _ (List.mem_singleton.mpr rfl))
        constructor
        · rintro ⟨-, hlt⟩
          exact ⟨e, List.mem_append_right _ (List.mem_singleton.mpr rfl), hgcs, hlt⟩
        · rintro ⟨x, hxm, hneq, hlt⟩
          refine ⟨ne_of_gt he1, ?_⟩
          rcases List.mem_append.mp hxm with h | h
          · have := hbound x h
            linarith
          · rw [List.mem_singleton] at h
            subst h
            exact hlt

/-- Witness for C6: one vehicle heartbeat at time 1 makes the client
healthy at time 2, and the GCS-typed heartbeat in the trace is ignored. -/
theorem is_healthy_iff_witness :
    is_healthy (processHeartbeats 0 [(1, MAV_TYPE_GCS), (1, 2)]) 2 := by
  have h := is_healthy_iff [(1, MAV_TYPE_GCS), (1, 2)] 2
    (by intro e he; fin_cases he <;> norm_num)
    (by
      constructor
      · intro b hb
        fin_cases hb
        exact le_rfl
      · exact List.pairwise_singleton _ _)
    (by intro e he; fin_cases he <;> norm_num)
  refine h.mpr ⟨(1, 2), by norm_num, by norm_num [MAV_TYPE_GCS], by
    norm_num [HEARTBEAT_TIMEOUT_S]⟩

/-- Claim C8: feeding any sequence of STATUSTEXT messages one at a time
from a reset state leaves the status log equal to the most recent 200
records in original arrival order; the log never exceeds 200 entries, and
250 appends leave exactly 200. -/
theorem statustext_cap (msgs : List (ℕ × String × ℝ)) :
    (runStatusTexts msgs).status_messages =
      (msgs.map mkStatus).drop (msgs.length - 200) ∧
    (runStatusTexts msgs).status_messages.length ≤ 200 ∧
    (msgs.length = 250 → (runStatusTexts msgs).status_messages.length = 200) := by
  have main : ∀ ms : List (ℕ × String × ℝ),
      (runStatusTexts ms).status_messages =
        (ms.map mkStatus).drop (ms.length - 200) := by
    intro ms
    induction ms using List.reverseRecOn with
    | nil => simp [runStatusTexts, VehicleState.reset]
    | append_singleton l e ih =>
        have hstep : runStatusTexts (l ++ [e]) =
            on_statustext (runStatusTexts l) ⟨e.1, e.2.1⟩ e.2.2 := by
          simp [runStatusTexts, List.foldl_append]
        have hmk : (⟨e.1, SEVERITY_NAMES e.1, e.2.1, e.2.2⟩ : StatusMessage)
            = mkStatus e := rfl
        rw [hstep]
        simp only [on_statustext, ih, hmk, List.map_append, List.map_cons,
          List.map_nil, List.length_append, List.length_map, List.length_cons,
          List.length_nil, List.length_drop]
        by_cases hn : l.length < 200
        · rw [if_neg (by omega)]
          have h1 : l.length - 200 = 0 := by omega
          have h2 : l.length + 1 - 200 = 0 := by omega
          simp [h1, h2]
        · rw [if_pos (by omega)]
          have h3 : l.length - (l.length - 200) + 1 - 200 = 1 := by omega
          rw [h3]
          rw [List.drop_append_of_le_length (by
            simp only [List.length_drop, List.length_map]
            omega)]
          rw [List.drop_drop]
          rw [List.drop_append_of_le_length (by
            simp only [List.length_map]
            omega)]
          have h5 : l.length - 200 + 1 = l.length + (0 + 1) - 200 := by omega
          rw [h5]
  refine ⟨main msgs, ?_, ?_⟩
  · rw [main msgs]
    simp only [List.length_drop, List.length_map]
    omega
  · intro h250
    rw [main msgs]
    simp only [List.length_drop, List.length_map, h250]

/-- Witness for C8: 250 identical appends leave exactly 200 entries. -/
theorem statustext_cap_witness :
    (runStatusTexts (List.replicate 250 (0, "", (0:ℝ)))).status_messages.length
      = 200 :=
  (statustext_cap (List.replicate 250 (0, "", (0:ℝ)))).2.2
    (by rw [List.length_replicate])

/-- Lengths of two pushed buffers agree when the original lengths agree
and are within the cap. -/
theorem push_length_congr {α β : Type} (bufA : List α) (vA : α)
    (bufB : List β) (vB : β) (h : bufA.length = bufB.length)
    (hle : bufB.length ≤ MAX_HISTORY) :
    (push MAX_HISTORY bufA vA).length = (push MAX_HISTORY bufB vB).length := by
  rw [push_length_of_le vA (h ▸ hle), push_length_of_le vB hle, h]

/-- Alignment and the cap are preserved by any run of history calls from
any state satisfying them. -/
theorem histInv_fold (l : List HistOp) :
    ∀ st : VehicleState, histAligned st → st.h_time.length ≤ MAX_HISTORY →
      histAligned (l.foldl applyHistOp st) ∧
      (l.foldl applyHistOp st).h_time.length ≤ MAX_HISTORY := by
  induction l with
  | nil => intro st h1 h2; exact ⟨h1, h2⟩
  | cons op rest ih =>
      intro st h1 h2
      rw [List.foldl_cons]
      cases op with
      | clear =>
          apply ih
          · simp [applyHistOp, clear_history, histAligned]
          · simp [applyHistOp, clear_history]
      | append d =>
          apply ih
          · obtain ⟨a1, a2, a3, a4, a5, a6, a7, a8, a9, a10, a11, a12, a13⟩ := h1
            simp only [applyHistOp, append_history, histAligned]
            exact ⟨push_length_congr _ _ _ _ a1 h2, push_length_congr _ _ _ _ a2 h2,
              push_length_congr _ _ _ _ a3 h2, push_length_congr _ _ _ _ a4 h2,
              push_length_congr _ _ _ _ a5 h2, push_length_congr _ _ _ _ a6 h2,
              push_length_congr _ _ _ _ a7 h2, push_length_congr _ _ _ _ a8 h2,
              push_length_congr _ _ _ _ a9 h2, push_length_congr _ _ _ _ a10 h2,
              push_length_congr _ _ _ _ a11 h2, push_length_congr _ _ _ _ a12 h2,
              push_length_congr _ _ _ _ a13 h2⟩
          · simp only [applyHistOp, append_history]
            rw [push_length_of_le _ h2]
            exact min_le_right _ _

/-- Claim C1: from a freshly reset state, after any finite sequence of
append_history / clear_history calls all fourteen rolling history buffers
have equal length, that length never exceeds MAX_HISTORY = 3000, and an
append performed at the cap removes exactly the oldest sample from every
buffer and appends the new one. -/
theorem history_invariant (ops : List HistOp) :
    histAligned (runHistOps ops) ∧
    (runHistOps ops).h_time.length ≤ MAX_HISTORY ∧
    ∀ d : HistData, (runHistOps ops).h_time.length = MAX_HISTORY →
      ((append_history (runHistOps ops) d).h_time
          = (runHistOps ops).h_time.drop 1 ++ [d.time_since_boot] ∧
        (append_history (runHistOps ops) d).h_lat
          = (runHistOps ops).h_lat.drop 1 ++ [d.lat] ∧
        (append_history (runHistOps ops) d).h_lon
          = (runHistOps ops).h_lon.drop 1 ++ [d.lon] ∧
        (append_history (runHistOps ops) d).h_alt_rel
          = (runHistOps ops).h_alt_rel.drop 1 ++ [d.alt_rel] ∧
        (append_history (runHistOps ops) d).h_alt_amsl
          = (runHistOps ops).h_alt_amsl.drop 1 ++ [d.alt_amsl] ∧
        (append_history (runHistOps ops) d).h_temperature
          = (runHistOps ops).h_temperature.drop 1 ++ [d.temperature] ∧
        (append_history (runHistOps ops) d).h_humidity
          = (runHistOps ops).h_humidity.drop 1 ++ [d.humidity] ∧
        (append_history (runHistOps ops) d).h_dew_temp
          = (runHistOps ops).h_dew_temp.drop 1 ++ [d.dew_temp] ∧
        (append_history (runHistOps ops) d).h_wind_speed
          = (runHistOps ops).h_wind_speed.drop 1 ++ [d.wind_speed] ∧
        (append_history (runHistOps ops) d).h_wind_dir
          = (runHistOps ops).h_wind_dir.drop 1 ++ [d.wind_dir] ∧
        (append_history (runHistOps ops) d).h_vert_wind
          = (runHistOps ops).h_vert_wind.drop 1 ++ [d.vert_wind] ∧
        (append_history (runHistOps ops) d).h_temp_sensors
          = (runHistOps ops).h_temp_sensors.drop 1 ++ [d.temp_sensors] ∧
        (append_history (runHistOps ops) d).h_rh_sensors
          = (runHistOps ops).h_rh_sensors.drop 1 ++ [d.rh_sensors] ∧
        (append_history (runHistOps ops) d).h_vz
          = (runHistOps ops).h_vz.drop 1 ++ [d.vz]) := by
  have base1 : histAligned VehicleState.reset := by
    simp [VehicleState.reset, histAligned]
  have base2 : VehicleState.reset.h_time.length ≤ MAX_HISTORY := by
    simp [VehicleState.reset]
  have h := histInv_fold ops VehicleState.reset base1 base2
  refine ⟨h.1, h.2, ?_⟩
  intro d hcap
  obtain ⟨a1, a2, a3, a4, a5, a6, a7, a8, a9, a10, a11, a12, a13⟩ := h.1
  have hc : (1:ℕ) ≤ MAX_HISTORY := by norm_num [MAX_HISTORY]
  simp only [append_history]
  exact ⟨push_at_cap _ hcap hc, push_at_cap _ (a1.trans hcap) hc,
    push_at_cap _ (a2.trans hcap) hc, push_at_cap _ (a3.trans hcap) hc,
    push_at_cap _ (a4.trans hcap) hc, push_at_cap _ (a5.trans hcap) hc,
    push_at_cap _ (a6.trans hcap) hc, push_at_cap _ (a7.trans hcap) hc,
    push_at_cap _ (a8.trans hcap) hc, push_at_cap _ (a9.trans hcap) hc,
    push_at_cap _ (a10.trans hcap) hc, push_at_cap _ (a11.trans hcap) hc,
    push_at_cap _ (a12.trans hcap) hc, push_at_cap _ (a13.trans hcap) hc⟩

/-- Filling with n appends caps the history length at min n MAX_HISTORY. -/
theorem replicate_append_len (d : HistData) (n : ℕ) :
    ∀ st : VehicleState, st.h_time.length ≤ MAX_HISTORY →
      (((List.replicate n (HistOp.append d)).foldl applyHistOp st).h_time.length
        = min (st.h_time.length + n) MAX_HISTORY) := by
  induction n with
  | zero => intro st hst; simp; omega
  | succ n ih =>
      intro st hst
      rw [List.replicate_succ, List.foldl_cons]
      rw [ih]
      · simp only [applyHistOp, append_history]
        rw [push_length_of_le _ hst]
        omega
      · simp only [applyHistOp, append_history]
        rw [push_length_of_le _ hst]
        exact min_le_right _ _

/-- Witness for C1 at a concrete cap-filled run: the very next append
evicts the oldest h_time sample and appends the new one. -/
theorem history_invariant_witness :
    (append_history (runHistOps capFillOps) {}).h_time
      = (runHistOps capFillOps).h_time.drop 1
          ++ [({} : HistData).time_since_boot] := by
  have hlen : (runHistOps capFillOps).h_time.length = MAX_HISTORY := by
    have := replicate_append_len {} MAX_HISTORY VehicleState.reset
      (by simp [VehicleState.reset])
    simpa [capFillOps, runHistOps, VehicleState.reset] using this
  exact ((history_invariant capFillOps).2.2 {} hlen).1

/-- The last element of a pushed buffer is the new sample. -/
theorem push_getLast_max (l : List α) (v : α) :
    (push MAX_HISTORY l v).getLast? = some v :=
  push_getLast v (by norm_num [MAX_HISTORY])

/-- Behaviour of the CASS handler on sub-type 0 when the filtered
temperature readings are nonempty: record the readings and their mean,
then append one fused sample built from the updated state. -/
theorem cass0_run (st : VehicleState) (values : List ℝ) (boot : ℝ)
    (t : ℝ) (ts : List ℝ)
    (hpr : positiveReadings (values.take 4) = t :: ts) :
    on_cass_sensor_raw st 0 values boot =
      (let st1 := if boot ≠ 0 then { st with time_since_boot := boot / 1000.0 } else st
       let st2 := { st1 with temperature_sensors := t :: ts,
                             mean_temp := (t :: ts).sum / (((t :: ts).length : ℕ) : ℝ) }
       let temp_c := if 100 < st2.mean_temp then st2.mean_temp - 273.15 else st2.mean_temp
       append_history st2
         { time_since_boot := st2.time_since_boot, lat := st2.lat, lon := st2.lon,
           alt_rel := st2.alt_rel, alt_amsl := st2.alt_amsl, temperature := temp_c,
           humidity := st2.mean_rh, dew_temp := dew_point temp_c st2.mean_rh,
           wind_speed := st2.wind_speed, wind_dir := st2.wind_direction,
           vert_wind := st2.vertical_wind, temp_sensors := st2.temperature_sensors,
           rh_sensors := st2.humidity_sensors, vz := st2.vz }) := by
  simp only [on_cass_sensor_raw, hpr]
  simp

/-- Claim C7: a CASS_SENSOR_RAW of sub-type 0 with channel values
[300.0, 301.0, 0, -5] sets mean_temp to 300.5 (zero and negative channels
filtered out), appends exactly one sample to every rolling history
buffer, and the recorded temperature is 300.5 − 273.15 = 27.35 Celsius
(the Kelvin offset is applied because the mean exceeds 100). -/
theorem cass_temp_message (st : VehicleState) (boot : ℝ) :
    (on_cass_sensor_raw st 0 [300, 301, 0, -5] boot).mean_temp = 300.5 ∧
    (on_cass_sensor_raw st 0 [300, 301, 0, -5] boot).temperature_sensors
      = [300, 301] ∧
    ((300.5 : ℝ) - 273.15 = 27.35) ∧
    (on_cass_sensor_raw st 0 [300, 301, 0, -5] boot).h_temperature
      = push MAX_HISTORY st.h_temperature (300.5 - 273.15) ∧
    (on_cass_sensor_raw st 0 [300, 301, 0, -5] boot).h_temperature.getLast?
      = some 27.35 ∧
    (on_cass_sensor_raw st 0 [300, 301, 0, -5] boot).h_time
      = push MAX_HISTORY st.h_time
          (if boot ≠ 0 then boot / 1000.0 else st.time_since_boot) ∧
    (on_cass_sensor_raw st 0 [300, 301, 0, -5] boot).h_lat
      = push MAX_HISTORY st.h_lat st.lat ∧
    (on_cass_sensor_raw st 0 [300, 301, 0, -5] boot).h_lon
      = push MAX_HISTORY st.h_lon st.lon ∧
    (on_cass_sensor_raw st 0 [300, 301, 0, -5] boot).h_alt_rel
      = push MAX_HISTORY st.h_alt_rel st.alt_rel ∧
    (on_cass_sensor_raw st 0 [300, 301, 0, -5] boot).h_alt_amsl
      = push MAX_HISTORY st.h_alt_amsl st.alt_amsl ∧
    (on_cass_sensor_raw st 0 [300, 301, 0, -5] boot).h_humidity
      = push MAX_HISTORY st.h_humidity st.mean_rh ∧
    (on_cass_sensor_raw st 0 [300, 301, 0, -5] boot).h_dew_temp
      = push MAX_HISTORY st.h_dew_temp (dew_point (300.5 - 273.15) st.mean_rh) ∧
    (on_cass_sensor_raw st 0 [300, 301, 0, -5] boot).h_wind_speed
      = push MAX_HISTORY st.h_wind_speed st.wind_speed ∧
    (on_cass_sensor_raw st 0 [300, 301, 0, -5] boot).h_wind_dir
      = push MAX_HISTORY st.h_wind_dir st.wind_direction ∧
    (on_cass_sensor_raw st 0 [300, 301, 0, -5] boot).h_vert_wind
      = push MAX_HISTORY st.h_vert_wind st.vertical_wind ∧
    (on_cass_sensor_raw st 0 [300, 301, 0, -5] boot).h_temp_sensors
      = push MAX_HISTORY st.h_temp_sensors [300, 301] ∧
    (on_cass_sensor_raw st 0 [300, 301, 0, -5] boot).h_rh_sensors
      = push MAX_HISTORY st.h_rh_sensors st.humidity_sensors ∧
    (on_cass_sensor_raw st 0 [300, 301, 0, -5] boot).h_vz
      = push MAX_HISTORY st.h_vz st.vz := by
  have htemps : positiveReadings (([300, 301, 0, -5] : List ℝ).take 4) = [300, 301] := by
    norm_num [positiveReadings]
  rw [cass0_run st [300, 301, 0, -5] boot 300 [301] htemps]
  by_cases hb : boot = 0 <;>
    norm_num [hb, append_history, push_getLast_max, List.sum_cons, List.sum_nil]

/-- A list of nonpositive readings filters to nothing. -/
theorem positiveReadings_eq_nil (l : List ℝ) (h : ∀ v ∈ l, v ≤ 0) :
    positiveReadings l = [] := by
  induction l with
  | nil => simp [positiveReadings]
  | cons v rest ih =>
      simp only [positiveReadings]
      rw [if_neg]
      · exact ih (fun x hx => h x (List.mem_cons_of_mem _ hx))
      · intro hc
        exact absurd hc.2 (not_lt.mpr (h v (List.mem_cons_self v rest)))

/-- Behaviour of the CASS handler on sub-types 0 and 1 when the filtered
readings are empty: the sensor lists and means stay untouched, yet one
fused sample is still appended from the (stale) current state. -/
theorem cass_empty_run (st : VehicleState) (dtype : ℕ) (values : List ℝ)
    (boot : ℝ) (hd : dtype = 0 ∨ dtype = 1)
    (hpr : positiveReadings (values.take 4) = []) :
    on_cass_sensor_raw st dtype values boot =
      (let st1 := if boot ≠ 0 then { st with time_since_boot := boot / 1000.0 } else st
       let temp_c := if 100 < st1.mean_temp then st1.mean_temp - 273.15 else st1.mean_temp
       append_history st1
         { time_since_boot := st1.time_since_boot, lat := st1.lat, lon := st1.lon,
           alt_rel := st1.alt_rel, alt_amsl := st1.alt_amsl, temperature := temp_c,
           humidity := st1.mean_rh, dew_temp := dew_point temp_c st1.mean_rh,
           wind_speed := st1.wind_speed, wind_dir := st1.wind_direction,
           vert_wind := st1.vertical_wind, temp_sensors := st1.temperature_sensors,
           rh_sensors := st1.humidity_sensors, vz := st1.vz }) := by
  rcases hd with h | h <;> subst h <;> simp only [on_cass_sensor_raw, hpr] <;> simp

/-- Claim C9: a CASS_SENSOR_RAW of sub-type 0 or 1 whose channel values
are all zero or negative leaves mean_temp, mean_rh and the per-sensor
reading lists unchanged, yet still appends exactly one sample to every
rolling history buffer, recording the previous (stale) mean values. -/
theorem cass_stale_append (st : VehicleState) (dtype : ℕ) (values : List ℝ)
    (boot : ℝ) (hd : dtype = 0 ∨ dtype = 1) (hv : ∀ v ∈ values, v ≤ 0) :
    (on_cass_sensor_raw st dtype values boot).mean_temp = st.mean_temp ∧
    (on_cass_sensor_raw st dtype values boot).mean_rh = st.mean_rh ∧
    (on_cass_sensor_raw st dtype values boot).temperature_sensors
      = st.temperature_sensors ∧
    (on_cass_sensor_raw st dtype values boot).humidity_sensors
      = st.humidity_sensors ∧
    (on_cass_sensor_raw st dtype values boot).h_time
      = push MAX_HISTORY st.h_time
          (if boot ≠ 0 then boot / 1000.0 else st.time_since_boot) ∧
    (on_cass_sensor_raw st dtype values boot).h_lat
      = push MAX_HISTORY st.h_lat st.lat ∧
    (on_cass_sensor_raw st dtype values boot).h_lon
      = push MAX_HISTORY st.h_lon st.lon ∧
    (on_cass_sensor_raw st dtype values boot).h_alt_rel
      = push MAX_HISTORY st.h_alt_rel st.alt_rel ∧
    (on_cass_sensor_raw st dtype values boot).h_alt_amsl
      = push MAX_HISTORY st.h_alt_amsl st.alt_amsl ∧
    (on_cass_sensor_raw st dtype values boot).h_temperature
      = push MAX_HISTORY st.h_temperature
          (if 100 < st.mean_temp then st.mean_temp - 273.15 else st.mean_temp) ∧
    (on_cass_sensor_raw st dtype values boot).h_humidity
      = push MAX_HISTORY st.h_humidity st.mean_rh ∧
    (on_cass_sensor_raw st dtype values boot).h_dew_temp
      = push MAX_HISTORY st.h_dew_temp
          (dew_point
            (if 100 < st.mean_temp then st.mean_temp - 273.15 else st.mean_temp)
            st.mean_rh) ∧
    (on_cass_sensor_raw st dtype values boot).h_wind_speed
      = push MAX_HISTORY st.h_wind_speed st.wind_speed ∧
    (on_cass_sensor_raw st dtype values boot).h_wind_dir
      = push MAX_HISTORY st.h_wind_dir st.wind_direction ∧
    (on_cass_sensor_raw st dtype values boot).h_vert_wind
      = push MAX_HISTORY st.h_vert_wind st.vertical_wind ∧
    (on_cass_sensor_raw st dtype values boot).h_temp_sensors
      = push MAX_HISTORY st.h_temp_sensors st.temperature_sensors ∧
    (on_cass_sensor_raw st dtype values boot).h_rh_sensors
      = push MAX_HISTORY st.h_rh_sensors st.humidity_sensors ∧
    (on_cass_sensor_raw st dtype values boot).h_vz
      = push MAX_HISTORY st.h_vz st.vz := by
  have hpr : positiveReadings (values.take 4) = [] :=
    positiveReadings_eq_nil _ (fun v hv2 => hv v (List.mem_of_mem_take hv2))
  rw [cass_empty_run st dtype values boot hd hpr]
  by_cases hb : boot = 0 <;> simp [hb, append_history]

/-- Witness for C9: sub-type 0 with values [0, −5] from the reset state
keeps the mean values and still appends the stale sample. -/
theorem cass_stale_append_witness :
    (on_cass_sensor_raw VehicleState.reset 0 [0, -5] 0).mean_temp
        = VehicleState.reset.mean_temp ∧
    (on_cass_sensor_raw VehicleState.reset 0 [0, -5] 0).mean_rh
        = VehicleState.reset.mean_rh := by
  have h := cass_stale_append VehicleState.reset 0 [0, -5] 0 (Or.inl rfl)
    (by intro v hv; fin_cases hv <;> norm_num)
  exact ⟨h.1, h.2.1⟩

/-- Looking up a key just upserted yields the new value. -/
theorem lookup_upsert_self {α : Type} (l : List (String × α)) (k : String)
    (v : α) : List.lookup k (upsert l k v) = some v := by
  induction l with
  | nil => simp [upsert, List.lookup]
  | cons p rest ih =>
      rcases p with ⟨pk, pv⟩
      unfold upsert
      by_cases h : pk = k
      · rw [if_pos h]
        simp only [List.lookup]
        rw [show (k == k) = true from beq_self_eq_true k]
      · rw [if_neg h]
        simp only [List.lookup]
        rw [show (k == pk) = false from beq_eq_false_iff_ne.mpr (Ne.symm h)]
        exact ih

/-- Looking up a deleted key yields nothing. -/
theorem lookup_adel_self {α : Type} (l : List (String × α)) (k : String) :
    List.lookup k (adel l k) = none := by
  induction l with
  | nil => rfl
  | cons p rest ih =>
      rcases p with ⟨pk, pv⟩
      unfold adel at ih ⊢
      rw [List.filter_cons]
      by_cases h : pk = k
      · rw [if_neg (by simp [h])]
        exact ih
      · rw [if_pos (by simp [h])]
        simp only [List.lookup]
        rw [show (k == pk) = false from beq_eq_false_iff_ne.mpr (Ne.symm h)]
        exact ih

/-- Write-ack behaviour of the handler for any staged edit outside a bulk
load: the edit is confirmed and removed exactly when the echoed value is
within 1e-6 = 1/1000000 of the staged value, else it stays pending with a
failure message. -/
theorem ack_spec (s : ParamsScreen) (d : ParamValueData)
    (staged : ℚ) (hload : s.loading = false)
    (hstaged : List.lookup d.param_id s.modified = some staged) :
    (|staged - d.param_value| < 1 / 1000000 →
       List.lookup d.param_id (on_param_received s d).modified = none ∧
       List.lookup d.param_id (on_param_received s d).original_values
         = some d.param_value ∧
       (on_param_received s d).feedback
         = .written d.param_id d.param_value) ∧
    (¬ |staged - d.param_value| < 1 / 1000000 →
       (on_param_received s d).modified = s.modified ∧
       (on_param_received s d).feedback
         = .writeFailed d.param_id d.param_value) := by
  constructor <;> intro htol <;>
    by_cases horig : (List.lookup d.param_id s.original_values).isNone <;>
      simp only [on_param_received, hload, hstaged, horig, Bool.not_false,
        if_true, if_false, Bool.false_eq_true, not_false_eq_true, ite_true,
        ite_false, htol, false_and, and_false] <;>
      simp [lookup_adel_self, lookup_upsert_self]

/-- Amended claim C3: the write-ack handler uses the 1e-6 tolerance for
every parameter type (integer wire types included, since the code
compares abs(staged − echoed) < 1e-6 unconditionally): an in-tolerance
echo removes the staged edit and rebases the original to the echoed
value; an out-of-tolerance echo leaves the pending map untouched and
surfaces a write-failure message. -/
theorem param_ack_tolerance (s : ParamsScreen) (d : ParamValueData)
    (staged : ℚ) (hload : s.loading = false)
    (hstaged : List.lookup d.param_id s.modified = some staged) :
    (|staged - d.param_value| < 1 / 1000000 →
       List.lookup d.param_id (on_param_received s d).modified = none ∧
       List.lookup d.param_id (on_param_received s d).original_values
         = some d.param_value ∧
       (on_param_received s d).feedback
         = .written d.param_id d.param_value) ∧
    (¬ |staged - d.param_value| < 1 / 1000000 →
       (on_param_received s d).modified = s.modified ∧
       (on_param_received s d).feedback
         = .writeFailed d.param_id d.param_value) :=
  ack_spec s d staged hload hstaged

/-- Witness for the amended C3: a staged edit of parameter A to 1 is
confirmed by an exact echo and removed from the pending map. -/
theorem param_ack_tolerance_witness :
    List.lookup "A" (on_param_received
      { modified := [("A", 1)], loading := false }
      ⟨"A", 1, 9, 0, 1⟩).modified = none :=
  ((param_ack_tolerance { modified := [("A", 1)], loading := false }
      ⟨"A", 1, 9, 0, 1⟩ 1 rfl (by simp [List.lookup])).1 (by norm_num)).1

/-- Counterexample to C3 as stated: parameter FOO has integer wire type 6
(INT32) and is staged at 5; the echo 5 + 1/2000000 is not exactly 5, so
the claim requires the edit to stay pending with a failure message, but
the handler accepts it within the blanket 1e-6 tolerance: the edit leaves
the pending map and a success message is surfaced. -/
theorem param_ack_int_exact_cex :
    (6 ∈ INT_TYPES) ∧
    ((5 : ℚ) + 1/2000000 ≠ 5) ∧
    List.lookup "FOO" (on_param_received
        { params := [("FOO", ⟨5, 6, 0⟩)], original_values := [("FOO", 5)],
          modified := [("FOO", 5)], param_count := 1, loading := false }
        ⟨"FOO", 5 + 1/2000000, 6, 0, 1⟩).modified = none ∧
    (on_param_received
        { params := [("FOO", ⟨5, 6, 0⟩)], original_values := [("FOO", 5)],
          modified := [("FOO", 5)], param_count := 1, loading := false }
        ⟨"FOO", 5 + 1/2000000, 6, 0, 1⟩).feedback
      = .written "FOO" (5 + 1/2000000) := by
  have htol : |(5:ℚ) - (5 + 1/2000000)| < 1 / 1000000 := by
    rw [show (5:ℚ) - (5 + 1/2000000) = -(1/2000000) by norm_num, abs_neg,
      abs_of_nonneg (by norm_num)]
    norm_num
  have h := ack_spec
    { params := [("FOO", ⟨5, 6, 0⟩)], original_values := [("FOO", 5)],
      modified := [("FOO", 5)], param_count := 1, loading := false }
    ⟨"FOO", 5 + 1/2000000, 6, 0, 1⟩ 5 rfl (by simp [List.lookup])
  exact ⟨by decide, by norm_num, (h.1 htol).1, (h.1 htol).2.2⟩

end GCS
